import Mathlib

/-!
Shallow embedding of the earthstar es.4 format validator
(src/formats/format_es4.ts, given as src/unnamed/part_004) and of the
SQLite FFI document driver (src/replica/doc_drivers/sqlite_ffi.ts),
together with proofs checking the natural-language specification
against this embedding.

JavaScript strings are modelled as Lean `String` (all the strings the
claims touch are ASCII, so UTF-16 length and character count agree);
JavaScript numbers holding timestamps are modelled as `Int` (the code
only ever stores integers in the safe-integer range in these fields);
`x | null` is modelled as `Option`; functions returning
`true | ValidationError` are modelled as `Except ValidationError Unit`.
-/

namespace Earthstar

/-- Error type mirroring util/errors.ts ValidationError: a tagged error
carrying a human-readable reason. -/
structure ValidationError where
  message : String
deriving Repr, DecidableEq

/-! ## String helpers

These model the JavaScript string operations used by the source:
indexOf(sub) !== -1, startsWith, endsWith.  They work on the
underlying character lists so that all proofs can evaluate them. -/

/-- Model of JavaScript sub.isContainedIn semantics: l.indexOf(sub) !== -1. -/
def hasSub : List Char → List Char → Bool
  | [], sub => sub.isEmpty
  | c :: t, sub => sub.isPrefixOf (c :: t) || hasSub t sub

/-- Model of path.indexOf(sub) !== -1 on strings. -/
def strHasSub (s sub : String) : Bool := hasSub s.data sub.data

/-- Model of s.startsWith(p). -/
def strStartsWith (s p : String) : Bool := p.data.isPrefixOf s.data

/-- Model of s.endsWith(p). -/
def strEndsWith (s p : String) : Bool := p.data.isSuffixOf s.data

/-! ## Character sets and address validators

Modelled from the spec: core-validators/characters.ts and
core-validators/addresses.ts are not under src/ (only their import
sites are).  The spec gives the fixed alphabets in section 4.1
(base32 is lowercase a-z plus digits 2-7; path characters are a
restricted punctuation/alphanumeric subset) and the effective address
regexes in section 6. -/

def isLowerAlpha (c : Char) : Bool := 'a' ≤ c && c ≤ 'z'

def isUpperAlpha (c : Char) : Bool := 'A' ≤ c && c ≤ 'Z'

def isDigit09 (c : Char) : Bool := '0' ≤ c && c ≤ '9'

def isLowerAlnum (c : Char) : Bool := isLowerAlpha c || isDigit09 c

/-- Modelled from the spec: base32 alphabet is lowercase letters plus the
digits 2 to 7 (section 4.1 and section 6, RFC 4648 lowercase). -/
def isB32Char (c : Char) : Bool := isLowerAlpha c || ('2' ≤ c && c ≤ '7')

/-- Modelled from the spec: characters.ts authorAddressChars.  The author
address regex of section 6 uses the at-sign, the dot, lowercase letters
and digits. -/
def isAuthorAddressChar (c : Char) : Bool :=
  isLowerAlnum c || c = '@' || c = '.'

/-- Modelled from the spec: characters.ts workspaceAddressChars.  The share
address regex of section 6 uses the plus sign, the dot, lowercase letters
and digits. -/
def isWorkspaceAddressChar (c : Char) : Bool :=
  isLowerAlnum c || c = '+' || c = '.'

/-- Modelled from the spec: characters.ts pathChars.  The spec (section 4.1)
only says paths use a restricted punctuation and alphanumeric subset; the
alphabet below contains the characters the spec mentions explicitly
(slash, tilde, exclamation mark, at-sign) plus alphanumerics and common
path punctuation. -/
def isPathChar (c : Char) : Bool :=
  isLowerAlpha c || isUpperAlpha c || isDigit09 c ||
    "/()-._~!*$&+,:=?@%".data.contains c

/-- Checks that the suffix part of an address is a lowercase b followed by
52 base32 characters (one base32-encoded ed25519 public key). -/
def b32PubkeyOk : List Char → Bool
  | 'b' :: rest => rest.length == 52 && rest.all isB32Char
  | _ => false

/-- Modelled from the spec: addresses.ts checkAuthorIsValid.  Section 6
gives the effective author regex: an at-sign, a shortname of 4 lowercase
alphanumerics starting with a letter, a dot, then a base32 public key. -/
def checkAuthorIsValid (addr : String) : Except ValidationError Unit :=
  match addr.data with
  | '@' :: s1 :: s2 :: s3 :: s4 :: '.' :: suffix =>
      if isLowerAlpha s1 && isLowerAlnum s2 && isLowerAlnum s3 && isLowerAlnum s4
          && b32PubkeyOk suffix
      then Except.ok ()
      else Except.error ⟨"not a valid author address"⟩
  | _ => Except.error ⟨"not a valid author address"⟩

/-- Splits a character list at the first dot, returning the parts before
and after it, or none when there is no dot. -/
def splitAtFirstDot : List Char → Option (List Char × List Char)
  | [] => none
  | '.' :: rest => some ([], rest)
  | c :: rest => (splitAtFirstDot rest).map (fun p => (c :: p.1, p.2))

/-- Modelled from the spec: addresses.ts checkShareIsValid.  Section 6
gives the effective share regex: a plus sign, a name of lowercase
alphanumerics starting with a letter, a dot, then a base32 public key. -/
def checkShareIsValid (addr : String) : Except ValidationError Unit :=
  match addr.data with
  | '+' :: rest =>
      match splitAtFirstDot rest with
      | some (name, suffix) =>
          match name with
          | [] => Except.error ⟨"not a valid share address"⟩
          | c :: cs =>
              if isLowerAlpha c && cs.all isLowerAlnum && b32PubkeyOk suffix
              then Except.ok ()
              else Except.error ⟨"not a valid share address"⟩
      | none => Except.error ⟨"not a valid share address"⟩
  | _ => Except.error ⟨"not a valid share address"⟩

/-! ## The es.4 document type (src/unnamed/part_004, DocEs4) -/

/-- Document type for the es.4 format, from part_004 interface DocEs4.
The optional replica-local field named localIndex with a leading
underscore is not part of the signed document and is stripped by
removeExtraFields before validation, so it is not part of this
structure; extra fields in general are handled by the entry-list
model used for removeExtraFields below. -/
structure DocEs4 where
  format : String
  author : String
  content : String
  contentHash : String
  deleteAfter : Option Int
  path : String
  signature : String
  timestamp : Int
  workspace : String
deriving Repr, DecidableEq

/-! ## Constants from part_004 -/

def FUTURE_CUTOFF_MINUTES : Int := 10

def FUTURE_CUTOFF_MICROSECONDS : Int := FUTURE_CUTOFF_MINUTES * 60 * 1000 * 1000

def MIN_TIMESTAMP : Int := 10000000000000

def MAX_TIMESTAMP : Int := 9007199254740990

def MAX_CONTENT_LENGTH : Nat := 4000000

def HASH_STR_LEN : Nat := 53

def SIG_STR_LEN : Nat := 104

/-! ## The core schema check (ES4_CORE_SCHEMA and checkObj)

Modelled from the spec: core-validators/checkers.ts is not under src/.
The schema constant ES4_CORE_SCHEMA with its per-field checker
parameters is in part_004; the checker semantics follow the spec
(section 4.1: pure predicates over fixed alphabets and length and range
bounds).  checkString enforces the allowed alphabet and the exact or
bounded length; checkInt enforces inclusive minimum and maximum bounds
(the schema parameters are named min and max, and the code comment calls
MIN_TIMESTAMP and MAX_TIMESTAMP the allowed valid range of timestamps)
and accepts null only when nullable is set.  checkObj runs the field
checkers in schema order and returns the first failure. -/

def checkStringField (allowed : Char → Bool) (s : String) : Bool :=
  s.data.all allowed

def checkIntField (min max : Int) (x : Int) : Bool :=
  min ≤ x && x ≤ max

def checkNullableIntField (min max : Int) : Option Int → Bool
  | none => true
  | some x => checkIntField min max x

/-- Basic structural and schema check from part_004, line 391: checkObj
applied to ES4_CORE_SCHEMA, field checkers run in schema declaration
order (format, author, content, contentHash, deleteAfter, path,
signature, timestamp, workspace), first failure returned. -/
def _checkBasicDocumentValidity (doc : DocEs4) : Except ValidationError Unit :=
  if ¬ (doc.format = "es.4") then
    Except.error ⟨"format: expected literal es.4"⟩
  else if ¬ checkStringField isAuthorAddressChar doc.author then
    Except.error ⟨"author: contains disallowed characters"⟩
  else if ¬ (doc.content.data.length ≤ MAX_CONTENT_LENGTH) then
    Except.error ⟨"content: too long"⟩
  else if ¬ (checkStringField isB32Char doc.contentHash
      && doc.contentHash.data.length == HASH_STR_LEN) then
    Except.error ⟨"contentHash: not a base32 string of the expected length"⟩
  else if ¬ checkNullableIntField MIN_TIMESTAMP MAX_TIMESTAMP doc.deleteAfter then
    Except.error ⟨"deleteAfter: out of range"⟩
  else if ¬ (checkStringField isPathChar doc.path
      && 2 ≤ doc.path.data.length && doc.path.data.length ≤ 512) then
    Except.error ⟨"path: invalid characters or length"⟩
  else if ¬ (checkStringField isB32Char doc.signature
      && doc.signature.data.length == SIG_STR_LEN) then
    Except.error ⟨"signature: not a base32 string of the expected length"⟩
  else if ¬ checkIntField MIN_TIMESTAMP MAX_TIMESTAMP doc.timestamp then
    Except.error ⟨"timestamp: out of range"⟩
  else if ¬ checkStringField isWorkspaceAddressChar doc.workspace then
    Except.error ⟨"workspace: contains disallowed characters"⟩
  else
    Except.ok ()

/-! ## The crypto provider

Modelled from the spec: the crypto provider (crypto/crypto.ts) is an
external collaborator (spec section 1 and section 4.2); the replica and
the formats use it abstractly.  We model the three operations the es.4
format uses: sha256base32 (hash a string, base32-encode with leading b),
sign (can fail on a bad keypair, so it returns an Except), and verify
(total, never raises, returns a Bool). -/

structure AuthorKeypair where
  address : String
  secret : String
deriving Repr, DecidableEq

structure CryptoModel where
  sha256base32 : String → String
  sign : AuthorKeypair → String → Except ValidationError String
  verify : (authorAddress : String) → (sig : String) → (msg : String) → Bool

/-! ## FormatEs4 operations (src/unnamed/part_004) -/

/-- Fake but well-shaped signature substituted before the basic validity
check inside hashDocument (part_004, line 200). -/
def fakeSignatureForHashing : String :=
  "bthisisafakesignatureusedtofillintheobjectwhenvalidatingitforhashingaaaaaaaaaaaaaaaaaaaaaaaaaaaaaaaaaaaa"

/-- Renders an Int the way JavaScript template interpolation renders an
integer-valued number. -/
def intToString (i : Int) : String := toString i

/-- FormatEs4.hashDocument from part_004, lines 185 to 226: substitute the
fake signature, run the basic validity check, then hash the serialized
field lines.  The hash function is taken as a parameter because the
crypto provider is external. -/
def hashDocument (sha : String → String) (doc : DocEs4) :
    Except ValidationError String :=
  let docWithFakeSig : DocEs4 := { doc with signature := fakeSignatureForHashing }
  match _checkBasicDocumentValidity docWithFakeSig with
  | Except.error e => Except.error e
  | Except.ok _ =>
      Except.ok (sha
        ("author\t" ++ doc.author ++ "\n" ++
          ("contentHash\t" ++ doc.contentHash ++ "\n") ++
          (match doc.deleteAfter with
            | none => ""
            | some da => "deleteAfter\t" ++ intToString da ++ "\n") ++
          ("format\t" ++ doc.format ++ "\n") ++
          ("path\t" ++ doc.path ++ "\n") ++
          ("timestamp\t" ++ intToString doc.timestamp ++ "\n") ++
          ("workspace\t" ++ doc.workspace ++ "\n")))

/-- FormatEs4.signDocument from part_004, lines 264 to 275: hash, sign,
return a copy with the signature installed. -/
def signDocument (crypto : CryptoModel) (keypair : AuthorKeypair)
    (doc : DocEs4) : Except ValidationError DocEs4 :=
  match hashDocument crypto.sha256base32 doc with
  | Except.error e => Except.error e
  | Except.ok hash =>
      match crypto.sign keypair hash with
      | Except.error e => Except.error e
      | Except.ok sig => Except.ok { doc with signature := sig }

/-- FormatEs4.wipeDocument from part_004, lines 280 to 301.  On the
structure representation removeExtraFields is the identity (a DocEs4
structure can only hold the schema fields), so the cleaned doc is the
doc itself; the entry-list model below handles extra fields.  Note the
returned doc keeps the timestamp of the input doc: the object literal
only replaces content, contentHash and signature. -/
def wipeDocument (crypto : CryptoModel) (keypair : AuthorKeypair)
    (doc : DocEs4) : Except ValidationError DocEs4 :=
  if doc.content.data.length = 0 then
    Except.ok doc
  else
    let emptyDoc : DocEs4 :=
      { doc with
        content := ""
        contentHash := crypto.sha256base32 ""
        signature := "?" }
    signDocument crypto keypair emptyDoc

/-- Keys of ES4_CORE_SCHEMA.objSchema, part_004 lines 155 to 173, used as
the set of valid keys by removeExtraFields. -/
def es4SchemaKeys : List String :=
  ["format", "author", "content", "contentHash", "deleteAfter", "path",
    "signature", "timestamp", "workspace"]

/-- FormatEs4.removeExtraFields from part_004, lines 310 to 336, on the
entry-list representation of a plain JavaScript object (field names in
insertion order, values of an arbitrary type).  Keys in the schema go to
the doc, keys starting with an underscore go to the extras, and any
other key is a ValidationError. -/
def removeExtraFieldsList {α : Type} (entries : List (String × α)) :
    Except ValidationError (List (String × α) × List (String × α)) :=
  match entries with
  | [] => Except.ok ([], [])
  | (k, v) :: rest =>
      if es4SchemaKeys.contains k then
        match removeExtraFieldsList rest with
        | Except.error e => Except.error e
        | Except.ok (d, ex) => Except.ok ((k, v) :: d, ex)
      else if strStartsWith k "_" then
        match removeExtraFieldsList rest with
        | Except.error e => Except.error e
        | Except.ok (d, ex) => Except.ok (d, (k, v) :: ex)
      else
        Except.error
          ⟨"extra document fields must have names starting with an underscore"⟩

/-- FormatEs4._checkAuthorCanWriteToPath from part_004, lines 396 to 411:
a path without a tilde is public; a path containing a tilde requires the
substring tilde-plus-author.  The source interpolates the author and path
into the error message; the message here is static. -/
def _checkAuthorCanWriteToPath (author path : String) :
    Except ValidationError Unit :=
  if strHasSub path "~" = false then Except.ok ()
  else if strHasSub path ("~" ++ author) then Except.ok ()
  else Except.error ⟨"author cannot write to path"⟩

/-- FormatEs4._checkTimestampIsOk from part_004, lines 412 to 443: reject
timestamps beyond now plus the future cutoff, expired ephemeral docs, and
ephemeral docs that expire at or before their creation time. -/
def _checkTimestampIsOk (timestamp : Int) (deleteAfter : Option Int)
    (now : Int) : Except ValidationError Unit :=
  if timestamp > now + FUTURE_CUTOFF_MICROSECONDS then
    Except.error ⟨"timestamp too far in the future"⟩
  else
    match deleteAfter with
    | none => Except.ok ()
    | some da =>
        if now > da then Except.error ⟨"ephemeral doc has expired"⟩
        else if da ≤ timestamp then
          Except.error ⟨"ephemeral doc expired before it was created"⟩
        else Except.ok ()

/-- FormatEs4._checkPathIsValid from part_004, lines 444 to 500.  The
second parameter models the optional deleteAfter argument: none means
the argument was omitted (skip the ephemerality rule), some da means it
was supplied with value da (da itself being none for null). -/
def _checkPathIsValid (path : String) (deleteAfter : Option (Option Int)) :
    Except ValidationError Unit :=
  if ¬ strStartsWith path "/" then
    Except.error ⟨"invalid path: must start with /"⟩
  else if strEndsWith path "/" then
    Except.error ⟨"invalid path: must not end with /"⟩
  else if strStartsWith path "/@" then
    Except.error ⟨"invalid path: must not start with /@"⟩
  else if strHasSub path "//" then
    Except.error ⟨"invalid path: must not contain two consecutive slashes"⟩
  else
    match deleteAfter with
    | none => Except.ok ()
    | some da =>
        if strHasSub path "!" = false && ¬ (da = none) then
          Except.error ⟨"when deleteAfter is set, path must contain the exclamation mark"⟩
        else if strHasSub path "!" && da = none then
          Except.error ⟨"when deleteAfter is null, path must not contain the exclamation mark"⟩
        else Except.ok ()

/-- FormatEs4._checkAuthorSignatureIsValid from part_004, lines 501 to
519: hash the doc and verify the signature against the author address.
The catch branch of the source cannot fire here because the modelled
verify is total (the spec, section 4.2, requires verify never to raise). -/
def _checkAuthorSignatureIsValid (crypto : CryptoModel) (doc : DocEs4) :
    Except ValidationError Unit :=
  match hashDocument crypto.sha256base32 doc with
  | Except.error e => Except.error e
  | Except.ok hash =>
      if crypto.verify doc.author doc.signature hash then Except.ok ()
      else Except.error ⟨"signature is invalid"⟩

/-- FormatEs4._checkContentMatchesHash from part_004, lines 520 to 532. -/
def _checkContentMatchesHash (crypto : CryptoModel) (content : String)
    (contentHash : String) : Except ValidationError Unit :=
  if ¬ (crypto.sha256base32 content = contentHash) then
    Except.error ⟨"content does not match contentHash"⟩
  else Except.ok ()

/-- FormatEs4.checkDocumentIsValid from part_004, lines 344 to 386: run
the sub-checks in source order, returning the first error.  The now
parameter is required here; the source defaults it to the current wall
clock when omitted. -/
def checkDocumentIsValid (crypto : CryptoModel) (doc : DocEs4) (now : Int) :
    Except ValidationError Unit :=
  match _checkBasicDocumentValidity doc with
  | Except.error e => Except.error e
  | Except.ok _ =>
  match _checkTimestampIsOk doc.timestamp doc.deleteAfter now with
  | Except.error e => Except.error e
  | Except.ok _ =>
  match _checkAuthorCanWriteToPath doc.author doc.path with
  | Except.error e => Except.error e
  | Except.ok _ =>
  match _checkPathIsValid doc.path (some doc.deleteAfter) with
  | Except.error e => Except.error e
  | Except.ok _ =>
  match checkAuthorIsValid doc.author with
  | Except.error e => Except.error e
  | Except.ok _ =>
  match checkShareIsValid doc.workspace with
  | Except.error e => Except.error e
  | Except.ok _ =>
  match _checkAuthorSignatureIsValid crypto doc with
  | Except.error e => Except.error e
  | Except.ok _ =>
  match _checkContentMatchesHash crypto doc.content doc.contentHash with
  | Except.error e => Except.error e
  | Except.ok _ => Except.ok ()

/-! ## Spec-side definitions

These follow the wording of the specification, to be compared with the
source-side definitions above. -/

/-- Canonical field list per the spec wording (section 6): every field of
the document paired with its rendered value, with content and signature
excluded and a null deleteAfter omitted, in lexicographic order of the
field names. -/
def specCanonicalFields (doc : DocEs4) : List (String × String) :=
  [("author", doc.author), ("contentHash", doc.contentHash)] ++
    (match doc.deleteAfter with
      | none => []
      | some da => [("deleteAfter", intToString da)]) ++
    [("format", doc.format), ("path", doc.path),
      ("timestamp", intToString doc.timestamp),
      ("workspace", doc.workspace)]

/-- Emits one line per field: the name, a tab, the value, a newline. -/
def specEmitFields : List (String × String) → String
  | [] => ""
  | (n, v) :: rest => n ++ "\t" ++ v ++ "\n" ++ specEmitFields rest

/-- Canonical document form per the spec wording (section 6): for each
field of specCanonicalFields emit name, tab, value, newline, with no
other separators. -/
def specCanonicalForm (doc : DocEs4) : String :=
  specEmitFields (specCanonicalFields doc)

/-- First error of a list of check results, or success when all succeed;
the spec-side formulation of running checks in order. -/
def firstError : List (Except ValidationError Unit) → Except ValidationError Unit
  | [] => Except.ok ()
  | Except.ok _ :: rest => firstError rest
  | Except.error e :: _ => Except.error e

/-! ## The SQLite FFI document driver (src/replica/doc_drivers/sqlite_ffi.ts)

The driver is modelled as explicit state passing: every method takes a
state and returns either a well-known error or a result together with
the next state.  The SQL statements themselves (sqlite.shared.ts is not
under src/) are modelled from the spec, section 4.4 and section 6: the
config table is a string-to-string key-value store, the docs table keys
rows by the pathAuthor column (unique), and eraseExpiredDocs removes the
rows whose deleteAfter is below now.  File-system effects of close with
erase (removing the database files) are outside the state model. -/

/-- Errors thrown by driver methods; part_004 of the driver uses
ReplicaIsClosedError from util/errors.ts. -/
inductive ReplicaError where
  | replicaIsClosed
deriving Repr, DecidableEq

/-- The document payload handed to upsert: a DocBase with the fields the
driver reads (path, author, deleteAfter for the expiry sweep, the
replica-local index slot) plus the rest of the document kept opaque. -/
structure DriverDoc where
  path : String
  author : String
  deleteAfter : Option Int
  localIndexField : Option Int
  rest : String
deriving Repr, DecidableEq

/-- One row of the docs table, as built by upsertSync (sqlite_ffi.ts,
lines 372 to 376): the serialized doc, the assigned localIndex, and the
pathAuthor key. -/
structure SqlDocRow where
  doc : DriverDoc
  localIndex : Int
  pathAuthor : String
deriving Repr, DecidableEq

/-- State of one DocDriverSqliteFfi instance: the closed flag and the
in-memory maxLocalIndex counter from the class, plus the two tables the
SQL statements touch. -/
structure SqliteDriverState where
  isClosedFlag : Bool
  maxLocalIndexField : Int
  docRows : List SqlDocRow
  configRows : List (String × String)
deriving Repr, DecidableEq

/-- Maximum localIndex over the stored rows: the MAX(localIndex) SQL
aggregate, none on an empty table. -/
def maxLocalIndexOfRows : List SqlDocRow → Option Int
  | [] => none
  | r :: rest =>
      some (match maxLocalIndexOfRows rest with
        | none => r.localIndex
        | some m => max r.localIndex m)

/-- The maxLocalIndex computation of the constructor (sqlite_ffi.ts,
lines 167 to 180): the MAX(localIndex) aggregate, with null mapped
to minus one. -/
def initialMaxLocalIndex (rows : List SqlDocRow) : Int :=
  match maxLocalIndexOfRows rows with
  | none => -1
  | some m => m

/-- Driver state as produced by the constructor over an existing docs
table and config table: open, with maxLocalIndex read from the rows. -/
def openDriver (rows : List SqlDocRow) (config : List (String × String)) :
    SqliteDriverState :=
  { isClosedFlag := false
    maxLocalIndexField := initialMaxLocalIndex rows
    docRows := rows
    configRows := config }

/-- DocDriverSqliteFfi.isClosed (sqlite_ffi.ts, lines 100 to 102). -/
def driverIsClosed (s : SqliteDriverState) : Bool := s.isClosedFlag

/-- DocDriverSqliteFfi.close (sqlite_ffi.ts, lines 64 to 98): throw when
already closed, otherwise close the database handle (and, when erase is
set, remove the backing files — an effect outside this state model) and
set the closed flag. -/
def driverClose (s : SqliteDriverState) (_erase : Bool) :
    Except ReplicaError SqliteDriverState :=
  if s.isClosedFlag then Except.error ReplicaError.replicaIsClosed
  else Except.ok { s with isClosedFlag := true }

/-- DocDriverSqliteFfi.setConfig (sqlite_ffi.ts, lines 245 to 255):
closed gate, then the config upsert statement. -/
def driverSetConfig (s : SqliteDriverState) (key content : String) :
    Except ReplicaError SqliteDriverState :=
  if s.isClosedFlag then Except.error ReplicaError.replicaIsClosed
  else
    Except.ok { s with
      configRows := (key, content) :: s.configRows.filter (fun p => p.1 ≠ key) }

/-- DocDriverSqliteFfi.getConfig (sqlite_ffi.ts, lines 275 to 280):
closed gate, then the config select statement. -/
def driverGetConfig (s : SqliteDriverState) (key : String) :
    Except ReplicaError (Option String) :=
  if s.isClosedFlag then Except.error ReplicaError.replicaIsClosed
  else Except.ok ((s.configRows.find? (fun p => p.1 = key)).map Prod.snd)

/-- Insertion of one string into a sorted list, for the sortedInPlace
call of listConfigKeys (compare.ts is not under src/; the spec only
needs the keys returned sorted). -/
def insertSortedString (x : String) : List String → List String
  | [] => [x]
  | y :: ys => if x < y then x :: y :: ys else y :: insertSortedString x ys

def sortStrings (l : List String) : List String :=
  l.foldr insertSortedString []

/-- DocDriverSqliteFfi.listConfigKeys (sqlite_ffi.ts, lines 282 to 287):
closed gate, then the sorted key list. -/
def driverListConfigKeys (s : SqliteDriverState) :
    Except ReplicaError (List String) :=
  if s.isClosedFlag then Except.error ReplicaError.replicaIsClosed
  else Except.ok (sortStrings (s.configRows.map Prod.fst))

/-- DocDriverSqliteFfi.deleteConfig (sqlite_ffi.ts, lines 289 to 298):
closed gate, then the delete statement, returning whether a row was
deleted. -/
def driverDeleteConfig (s : SqliteDriverState) (key : String) :
    Except ReplicaError (Bool × SqliteDriverState) :=
  if s.isClosedFlag then Except.error ReplicaError.replicaIsClosed
  else
    Except.ok (s.configRows.any (fun p => p.1 = key),
      { s with configRows := s.configRows.filter (fun p => p.1 ≠ key) })

/-- DocDriverSqliteFfi.getMaxLocalIndex (sqlite_ffi.ts, lines 303 to
309): closed gate, then the in-memory counter. -/
def driverGetMaxLocalIndex (s : SqliteDriverState) :
    Except ReplicaError Int :=
  if s.isClosedFlag then Except.error ReplicaError.replicaIsClosed
  else Except.ok s.maxLocalIndexField

/-- DocDriverSqliteFfi.queryDocs via queryDocsSync (sqlite_ffi.ts, lines
311 to 349): closed gate, then query execution.  The query cleanup and
SQL construction (query.ts and sqlite.shared.ts, not under src/) are
taken as an opaque parameter runQuery, since no claim depends on the
filtering semantics. -/
def driverQueryDocs (runQuery : List SqlDocRow → List SqlDocRow)
    (s : SqliteDriverState) : Except ReplicaError (List DriverDoc) :=
  if s.isClosedFlag then Except.error ReplicaError.replicaIsClosed
  else
    Except.ok ((runQuery s.docRows).map
      (fun r => { r.doc with localIndexField := some r.localIndex }))

/-- DocDriverSqliteFfi.upsert via upsertSync (sqlite_ffi.ts, lines 354
to 383): closed gate; build the row with localIndex one above the
in-memory counter; bump the counter; run the doc upsert statement
(keyed on the unique pathAuthor column); return the doc with its
assigned index. -/
def driverUpsert (s : SqliteDriverState) (doc : DriverDoc) :
    Except ReplicaError (DriverDoc × SqliteDriverState) :=
  if s.isClosedFlag then Except.error ReplicaError.replicaIsClosed
  else
    let row : SqlDocRow :=
      { doc := doc
        localIndex := s.maxLocalIndexField + 1
        pathAuthor := doc.path ++ " " ++ doc.author }
    Except.ok ({ doc with localIndexField := some row.localIndex },
      { s with
        maxLocalIndexField := s.maxLocalIndexField + 1
        docRows := row :: s.docRows.filter (fun r => r.pathAuthor ≠ row.pathAuthor) })

/-- DocDriverSqliteFfi.eraseExpiredDocs (sqlite_ffi.ts, lines 385 to
405): closed gate; select and delete the rows whose deleteAfter is
below now; return the wiped docs. -/
def driverEraseExpiredDocs (s : SqliteDriverState) (now : Int) :
    Except ReplicaError (List DriverDoc × SqliteDriverState) :=
  if s.isClosedFlag then Except.error ReplicaError.replicaIsClosed
  else
    let expired := fun (r : SqlDocRow) =>
      match r.doc.deleteAfter with
      | none => false
      | some da => decide (da < now)
    Except.ok ((s.docRows.filter expired).map SqlDocRow.doc,
      { s with docRows := s.docRows.filter (fun r => ¬ expired r) })

/-- Runs driverUpsert over a list of docs in order, collecting the
assigned localIndex of each returned doc. -/
def driverUpsertAll (s : SqliteDriverState) :
    List DriverDoc → Except ReplicaError (List Int × SqliteDriverState)
  | [] => Except.ok ([], s)
  | d :: ds =>
      match driverUpsert s d with
      | Except.error e => Except.error e
      | Except.ok (d2, s2) =>
          match driverUpsertAll s2 ds with
          | Except.error e => Except.error e
          | Except.ok (idxs, s3) =>
              Except.ok (d2.localIndexField.getD 0 :: idxs, s3)

/-! ## Concrete instances used by witnesses and counterexamples -/

/-- A well-shaped base32 hash string: the letter b followed by 52 base32
characters. -/
def exHash : String := "baaaaaaaaaaaaaaaaaaaaaaaaaaaaaaaaaaaaaaaaaaaaaaaaaaaa"

/-- A well-shaped base32 signature string: the letter b followed by 103
base32 characters. -/
def exSig : String := "baaaaaaaaaaaaaaaaaaaaaaaaaaaaaaaaaaaaaaaaaaaaaaaaaaaaaaaaaaaaaaaaaaaaaaaaaaaaaaaaaaaaaaaaaaaaaaaaaaaaaaa"

/-- A trivial crypto provider instance: a constant hash of the right
shape, a constant signature of the right shape, verification that always
succeeds.  Witnesses and counterexamples for claims whose content does
not depend on the cryptographic primitives are evaluated at this
instance. -/
def cryptoTriv : CryptoModel :=
  { sha256base32 := fun _ => exHash
    sign := fun _ _ => Except.ok exSig
    verify := fun _ _ _ => true }

def exKeypair : AuthorKeypair :=
  { address := "@test.baaaaaaaaaaaaaaaaaaaaaaaaaaaaaaaaaaaaaaaaaaaaaaaaaaaa"
    secret := "b" }

/-- A concrete es.4 document accepted by checkDocumentIsValid at
cryptoTriv with now equal to its timestamp. -/
def exDoc : DocEs4 :=
  { format := "es.4"
    author := "@test.baaaaaaaaaaaaaaaaaaaaaaaaaaaaaaaaaaaaaaaaaaaaaaaaaaaa"
    content := "x"
    contentHash := exHash
    deleteAfter := none
    path := "/a"
    signature := exSig
    timestamp := MIN_TIMESTAMP
    workspace := "+gard.baaaaaaaaaaaaaaaaaaaaaaaaaaaaaaaaaaaaaaaaaaaaaaaaaaaa" }

/-- The same document with its timestamp at MAX_TIMESTAMP, the largest
value the schema bound admits. -/
def exDocMax : DocEs4 := { exDoc with timestamp := MAX_TIMESTAMP }

/-- The document wipeDocument produces from exDoc at cryptoTriv. -/
def exWipedDoc : DocEs4 :=
  { exDoc with content := "", contentHash := exHash, signature := exSig }

/-! ## Helper lemmas -/

theorem stringDataInj {a b : String} (h : a.data = b.data) : a = b := by
  cases a
  cases b
  exact congrArg String.mk h

theorem strDataAppend (a b : String) : (a ++ b).data = a.data ++ b.data := rfl

/-- Boolean lexicographic comparison on character lists, used to state
the lexicographic-order part of the canonical form claim in an
evaluable way. -/
def charListLt : List Char → List Char → Bool
  | [], [] => false
  | [], _ :: _ => true
  | _ :: _, [] => false
  | a :: as, b :: bs => if a < b then true else if a = b then charListLt as bs else false

/-- Boolean lexicographic order on strings. -/
def strLt (a b : String) : Bool := charListLt a.data b.data

/-- Unfolding of the basic validity check into the conjunction of its
per-field schema conditions. -/
theorem basicValidity_ok_iff (doc : DocEs4) :
    _checkBasicDocumentValidity doc = Except.ok () ↔
      (doc.format = "es.4" ∧
        checkStringField isAuthorAddressChar doc.author = true ∧
        doc.content.data.length ≤ MAX_CONTENT_LENGTH ∧
        checkStringField isB32Char doc.contentHash = true ∧
        doc.contentHash.data.length = HASH_STR_LEN ∧
        checkNullableIntField MIN_TIMESTAMP MAX_TIMESTAMP doc.deleteAfter = true ∧
        checkStringField isPathChar doc.path = true ∧
        2 ≤ doc.path.data.length ∧ doc.path.data.length ≤ 512 ∧
        checkStringField isB32Char doc.signature = true ∧
        doc.signature.data.length = SIG_STR_LEN ∧
        checkIntField MIN_TIMESTAMP MAX_TIMESTAMP doc.timestamp = true ∧
        checkStringField isWorkspaceAddressChar doc.workspace = true) := by
  unfold _checkBasicDocumentValidity
  split_ifs with h1 h2 h3 h4 h5 h6 h7 h8 h9 <;>
    simp_all [Bool.and_eq_true, Nat.beq_eq_true_eq]

/-- The fake signature substituted by hashDocument satisfies the schema
constraints on the signature field. -/
theorem fakeSignature_wellShaped :
    checkStringField isB32Char fakeSignatureForHashing = true ∧
      fakeSignatureForHashing.data.length = SIG_STR_LEN := by
  constructor <;> rfl

/-- A doc that passes the basic validity check still passes it after the
fake signature is substituted for its signature field. -/
theorem basicValidity_fakeSig {doc : DocEs4}
    (h : _checkBasicDocumentValidity doc = Except.ok ()) :
    _checkBasicDocumentValidity { doc with signature := fakeSignatureForHashing } =
      Except.ok () := by
  rw [basicValidity_ok_iff] at h ⊢
  dsimp only
  obtain ⟨h1, h2, h3, h4, h5, h6, h7, h8, h9, _, _, h12, h13⟩ := h
  exact ⟨h1, h2, h3, h4, h5, h6, h7, h8, h9,
    fakeSignature_wellShaped.1, fakeSignature_wellShaped.2, h12, h13⟩

/-- Inversion for checkDocumentIsValid: success means every sub-check
succeeded. -/
theorem checkDocumentIsValid_ok_inv (crypto : CryptoModel) (doc : DocEs4)
    (now : Int) (h : checkDocumentIsValid crypto doc now = Except.ok ()) :
    _checkBasicDocumentValidity doc = Except.ok () ∧
      _checkTimestampIsOk doc.timestamp doc.deleteAfter now = Except.ok () ∧
      _checkAuthorCanWriteToPath doc.author doc.path = Except.ok () ∧
      _checkPathIsValid doc.path (some doc.deleteAfter) = Except.ok () ∧
      checkAuthorIsValid doc.author = Except.ok () ∧
      checkShareIsValid doc.workspace = Except.ok () ∧
      _checkAuthorSignatureIsValid crypto doc = Except.ok () ∧
      _checkContentMatchesHash crypto doc.content doc.contentHash = Except.ok () := by
  unfold checkDocumentIsValid at h
  repeat' split at h
  any_goals exact Except.noConfusion h
  exact ⟨by assumption, by assumption, by assumption, by assumption,
    by assumption, by assumption, by assumption, by assumption⟩

/-! ## Claim theorems -/

/-- C1: for every es.4 document that passes the basic structural validity
check, hashDocument returns the hash of exactly the canonical string of
the spec: one line name-tab-value-newline per non-null field other than
content and signature, in lexicographic order of the field names
(author, contentHash, deleteAfter, format, path, timestamp, workspace),
the deleteAfter line omitted when deleteAfter is null, and no other
separators. -/
theorem hashDocument_canonical (sha : String → String) (doc : DocEs4)
    (h : _checkBasicDocumentValidity doc = Except.ok ()) :
    hashDocument sha doc = Except.ok (sha (specCanonicalForm doc)) ∧
      List.Pairwise (fun a b => strLt a b = true)
        ((specCanonicalFields doc).map Prod.fst) := by
  constructor
  · unfold hashDocument
    dsimp only
    rw [basicValidity_fakeSig h]
    dsimp only
    congr 2
    apply stringDataInj
    unfold specCanonicalForm specCanonicalFields specEmitFields intToString
    cases doc.deleteAfter <;>
      simp only [specEmitFields, List.cons_append, List.nil_append,
        List.singleton_append, strDataAppend, List.append_assoc,
        List.append_nil]
  · cases hda : doc.deleteAfter <;>
      simp only [specCanonicalFields, hda, List.map_append, List.map_cons,
        List.map_nil, List.nil_append, List.cons_append] <;> decide

/-- Witness for C1 at a concrete document. -/
theorem hashDocument_canonical_witness :
    _checkBasicDocumentValidity exDoc = Except.ok () ∧
      hashDocument cryptoTriv.sha256base32 exDoc =
        Except.ok (cryptoTriv.sha256base32 (specCanonicalForm exDoc)) :=
  ⟨rfl, (hashDocument_canonical cryptoTriv.sha256base32 exDoc rfl).1⟩

/-- C10: the hash of a document never depends on its signature field:
changing the signature to any value leaves the result of hashDocument
unchanged, for every hash function. -/
theorem hashDocument_ignores_signature (sha : String → String) (doc : DocEs4)
    (sig : String) :
    hashDocument sha { doc with signature := sig } = hashDocument sha doc := rfl

/-- Shape of the document wipeDocument builds before re-signing: content
emptied, contentHash recomputed over the empty string, and the given
signature installed; all other fields of the input doc unchanged. -/
def wipedForm (crypto : CryptoModel) (doc : DocEs4) (sig : String) : DocEs4 :=
  { doc with
    content := ""
    contentHash := crypto.sha256base32 ""
    signature := sig }

/-- C2 (amended): wipeDocument on a document with non-empty content
returns a re-signed document with the same path, author and timestamp
and with empty content; the timestamp is not changed by wipeDocument
itself (the slightly-later timestamp of the overwrite flow is applied by
the replica layer before re-signing). -/
theorem wipeDocument_same_identity (crypto : CryptoModel)
    (keypair : AuthorKeypair) (doc : DocEs4) (hash sig : String)
    (hc : ¬ doc.content.data.length = 0)
    (hh : hashDocument crypto.sha256base32 (wipedForm crypto doc "?") =
      Except.ok hash)
    (hs : crypto.sign keypair hash = Except.ok sig) :
    wipeDocument crypto keypair doc = Except.ok (wipedForm crypto doc sig) ∧
      (wipedForm crypto doc sig).timestamp = doc.timestamp ∧
      (wipedForm crypto doc sig).path = doc.path ∧
      (wipedForm crypto doc sig).author = doc.author ∧
      (wipedForm crypto doc sig).content = "" := by
  refine ⟨?_, rfl, rfl, rfl, rfl⟩
  unfold wipeDocument signDocument wipedForm
  rw [if_neg hc]
  dsimp only
  unfold wipedForm at hh
  rw [hh]
  dsimp only
  rw [hs]

/-- Witness for the amended C2 at concrete inputs. -/
theorem wipeDocument_same_identity_witness :
    wipeDocument cryptoTriv exKeypair exDoc = Except.ok exWipedDoc ∧
      exWipedDoc.timestamp = exDoc.timestamp :=
  ⟨(wipeDocument_same_identity cryptoTriv exKeypair exDoc exHash exSig
      (by decide) rfl rfl).1,
    (wipeDocument_same_identity cryptoTriv exKeypair exDoc exHash exSig
      (by decide) rfl rfl).2.1⟩

/-- C2 counterexample: wiping a concrete document with non-empty content
succeeds but the resulting timestamp is not strictly greater than the
original timestamp, contradicting the claim as stated. -/
theorem wipeDocument_timestamp_counterexample :
    wipeDocument cryptoTriv exKeypair exDoc = Except.ok exWipedDoc ∧
      exDoc.content ≠ "" ∧ ¬ exWipedDoc.timestamp > exDoc.timestamp :=
  ⟨rfl, by decide, by decide⟩

/-- C3: checkDocumentIsValid equals the first error of the sub-checks
run in exactly the source order: basic structural check, timestamp and
ephemeral check, author-can-write-to-path check, path-shape check,
author address validity, share address validity, signature verification,
contentHash verification; success when all pass. -/
theorem checkDocumentIsValid_first_error (crypto : CryptoModel)
    (doc : DocEs4) (now : Int) :
    checkDocumentIsValid crypto doc now =
      firstError
        [_checkBasicDocumentValidity doc,
          _checkTimestampIsOk doc.timestamp doc.deleteAfter now,
          _checkAuthorCanWriteToPath doc.author doc.path,
          _checkPathIsValid doc.path (some doc.deleteAfter),
          checkAuthorIsValid doc.author,
          checkShareIsValid doc.workspace,
          _checkAuthorSignatureIsValid crypto doc,
          _checkContentMatchesHash crypto doc.content doc.contentHash] := by
  unfold checkDocumentIsValid
  cases _checkBasicDocumentValidity doc <;> simp only [firstError] <;>
    cases _checkTimestampIsOk doc.timestamp doc.deleteAfter now <;>
      simp only [firstError] <;>
    cases _checkAuthorCanWriteToPath doc.author doc.path <;>
      simp only [firstError] <;>
    cases _checkPathIsValid doc.path (some doc.deleteAfter) <;>
      simp only [firstError] <;>
    cases checkAuthorIsValid doc.author <;> simp only [firstError] <;>
    cases checkShareIsValid doc.workspace <;> simp only [firstError] <;>
    cases _checkAuthorSignatureIsValid crypto doc <;> simp only [firstError] <;>
    cases _checkContentMatchesHash crypto doc.content doc.contentHash <;>
      simp only [firstError]

/-- C4 (amended): a document accepted by checkDocumentIsValid has its
timestamp in the closed interval from MIN_TIMESTAMP (10 to the 13th) up
to and including MAX_TIMESTAMP (2 to the 53rd minus 2), and at most 10
minutes (6 times 10 to the 8th microseconds) beyond now.  The upper
bound is inclusive: the spec states the half-open interval but
MAX_TIMESTAMP itself is accepted. -/
theorem checkDocumentIsValid_timestamp_bounds (crypto : CryptoModel)
    (doc : DocEs4) (now : Int)
    (h : checkDocumentIsValid crypto doc now = Except.ok ()) :
    MIN_TIMESTAMP ≤ doc.timestamp ∧ doc.timestamp ≤ MAX_TIMESTAMP ∧
      doc.timestamp ≤ now + FUTURE_CUTOFF_MICROSECONDS := by
  obtain ⟨hbv, ht, -, -, -, -, -, -⟩ := checkDocumentIsValid_ok_inv crypto doc now h
  rw [basicValidity_ok_iff] at hbv
  obtain ⟨-, -, -, -, -, -, -, -, -, -, -, hts, -⟩ := hbv
  simp only [checkIntField, Bool.and_eq_true, decide_eq_true_eq] at hts
  refine ⟨hts.1, hts.2, ?_⟩
  unfold _checkTimestampIsOk at ht
  by_cases hf : doc.timestamp > now + FUTURE_CUTOFF_MICROSECONDS
  · rw [if_pos hf] at ht
    exact Except.noConfusion ht
  · exact not_lt.mp hf

/-- Witness for the amended C4 at a concrete accepted document. -/
theorem checkDocumentIsValid_timestamp_bounds_witness :
    checkDocumentIsValid cryptoTriv exDoc MIN_TIMESTAMP = Except.ok () ∧
      MIN_TIMESTAMP ≤ exDoc.timestamp ∧ exDoc.timestamp ≤ MAX_TIMESTAMP ∧
      exDoc.timestamp ≤ MIN_TIMESTAMP + FUTURE_CUTOFF_MICROSECONDS :=
  ⟨rfl, checkDocumentIsValid_timestamp_bounds cryptoTriv exDoc MIN_TIMESTAMP rfl⟩

/-- C4 counterexample: a document with timestamp exactly MAX_TIMESTAMP,
which is 2 to the 53rd minus 2 and therefore outside the claimed
half-open interval, is accepted by checkDocumentIsValid. -/
theorem checkDocumentIsValid_timestamp_boundary_counterexample :
    checkDocumentIsValid cryptoTriv exDocMax MAX_TIMESTAMP = Except.ok () ∧
      ¬ exDocMax.timestamp < 9007199254740990 :=
  ⟨rfl, by decide⟩

/-- C5: a document accepted by checkDocumentIsValid has a non-null
deleteAfter exactly when its path contains an exclamation mark: a
non-null deleteAfter forces the mark to be present and a null
deleteAfter forces it to be absent. -/
theorem checkDocumentIsValid_ephemeral_path (crypto : CryptoModel)
    (doc : DocEs4) (now : Int)
    (h : checkDocumentIsValid crypto doc now = Except.ok ()) :
    (doc.deleteAfter ≠ none → strHasSub doc.path "!" = true) ∧
      (doc.deleteAfter = none → strHasSub doc.path "!" = false) := by
  obtain ⟨-, -, -, hp, -, -, -, -⟩ := checkDocumentIsValid_ok_inv crypto doc now h
  unfold _checkPathIsValid at hp
  split_ifs at hp <;> first
    | exact Except.noConfusion hp
    | constructor <;> intro hda <;>
        cases hsub : strHasSub doc.path "!" <;> simp_all

/-- Witness for C5 at a concrete accepted document. -/
theorem checkDocumentIsValid_ephemeral_path_witness :
    checkDocumentIsValid cryptoTriv exDoc MIN_TIMESTAMP = Except.ok () ∧
      strHasSub exDoc.path "!" = false :=
  ⟨rfl,
    (checkDocumentIsValid_ephemeral_path cryptoTriv exDoc MIN_TIMESTAMP rfl).2 rfl⟩

/-- C6: a path containing a tilde but not the substring tilde-author is
rejected by the author-can-write check, and any document with that
author and path is rejected by checkDocumentIsValid; a path without a
tilde passes the write-permission check for every author. -/
theorem authorCanWriteToPath_rules (author path : String)
    (crypto : CryptoModel) (doc : DocEs4) (now : Int) :
    (strHasSub path "~" = true → strHasSub path ("~" ++ author) = false →
      _checkAuthorCanWriteToPath author path =
          Except.error ⟨"author cannot write to path"⟩ ∧
        (doc.author = author → doc.path = path →
          checkDocumentIsValid crypto doc now ≠ Except.ok ())) ∧
      (strHasSub path "~" = false →
        _checkAuthorCanWriteToPath author path = Except.ok ()) := by
  constructor
  · intro h1 h2
    have he : _checkAuthorCanWriteToPath author path =
        Except.error ⟨"author cannot write to path"⟩ := by
      unfold _checkAuthorCanWriteToPath
      rw [h1, h2]
      simp
    refine ⟨he, ?_⟩
    intro ha hp hok
    obtain ⟨-, -, hw, -, -, -, -, -⟩ :=
      checkDocumentIsValid_ok_inv crypto doc now hok
    rw [ha, hp, he] at hw
    exact Except.noConfusion hw
  · intro h1
    unfold _checkAuthorCanWriteToPath
    rw [h1]
    simp

/-- Witness for C6: a concrete tilde path another author cannot write
to, and a concrete public path. -/
theorem authorCanWriteToPath_rules_witness :
    _checkAuthorCanWriteToPath "@a" "/~@b/x" =
        Except.error ⟨"author cannot write to path"⟩ ∧
      _checkAuthorCanWriteToPath "@a" "/x" = Except.ok () :=
  ⟨((authorCanWriteToPath_rules "@a" "/~@b/x" cryptoTriv exDoc 0).1 rfl rfl).1,
    (authorCanWriteToPath_rules "@a" "/x" cryptoTriv exDoc 0).2 rfl⟩

/-- C7 (amended): on an input object whose non-schema fields all have
names beginning with an underscore, removeExtraFields returns exactly
the schema entries as the doc and exactly the non-schema entries as the
extras, and the returned doc never contains a non-schema field.  An
input with a non-underscore non-schema field is rejected with a
ValidationError instead of returning a document. -/
theorem removeExtraFields_spec {α : Type} (entries : List (String × α))
    (h : ∀ p ∈ entries, es4SchemaKeys.contains p.1 = false →
      strStartsWith p.1 "_" = true) :
    removeExtraFieldsList entries =
        Except.ok (entries.filter (fun p => es4SchemaKeys.contains p.1),
          entries.filter (fun p => ! es4SchemaKeys.contains p.1)) ∧
      (∀ p ∈ entries.filter (fun p => es4SchemaKeys.contains p.1),
        es4SchemaKeys.contains p.1 = true) ∧
      (∀ p ∈ entries.filter (fun p => ! es4SchemaKeys.contains p.1),
        strStartsWith p.1 "_" = true) := by
  refine ⟨?_, fun p hp => (List.mem_filter.mp hp).2, fun p hp => ?_⟩
  · induction entries with
    | nil => rfl
    | cons hd tl ih =>
        obtain ⟨k, v⟩ := hd
        have htl : ∀ p ∈ tl, es4SchemaKeys.contains p.1 = false →
            strStartsWith p.1 "_" = true :=
          fun p hp hc => h p (List.mem_cons_of_mem _ hp) hc
        by_cases hk : es4SchemaKeys.contains k = true
        · simp only [removeExtraFieldsList, hk, if_true, ih htl,
            List.filter_cons, Bool.not_true]
          simp [hk]
        · have hu : strStartsWith k "_" = true :=
            h (k, v) (List.mem_cons_self _ _) (by simpa using hk)
          simp only [removeExtraFieldsList, hk, if_false, hu, if_true,
            ih htl, List.filter_cons]
          simp [hk, hu]
  · have hm := List.mem_filter.mp hp
    exact h p hm.1 (by simpa using hm.2)

/-- Witness for the amended C7 at a concrete input with one schema field
and one underscore extra field. -/
theorem removeExtraFields_spec_witness :
    removeExtraFieldsList ([("format", 1), ("_localIndex", 2)] : List (String × Nat)) =
      Except.ok ([("format", 1)], [("_localIndex", 2)]) := by
  have h := removeExtraFields_spec
    ([("format", 1), ("_localIndex", 2)] : List (String × Nat)) (by decide)
  simpa using h.1

/-- C7 counterexample: an input object with the single non-schema field
named foo, which does not start with an underscore, makes
removeExtraFields return a ValidationError; no document is returned, so
the claim as stated fails on this input. -/
theorem removeExtraFields_counterexample :
    removeExtraFieldsList ([("foo", 0)] : List (String × Nat)) =
      Except.error
        ⟨"extra document fields must have names starting with an underscore"⟩ := rfl

/-- Single upsert step on an open driver: the stored doc gets localIndex
one above the current counter and the counter is bumped. -/
theorem driverUpsert_step (s : SqliteDriverState) (d : DriverDoc)
    (ho : s.isClosedFlag = false) :
    ∃ d2 s2, driverUpsert s d = Except.ok (d2, s2) ∧
      d2.localIndexField = some (s.maxLocalIndexField + 1) ∧
      s2.maxLocalIndexField = s.maxLocalIndexField + 1 ∧
      s2.isClosedFlag = false := by
  unfold driverUpsert
  rw [if_neg (by simp [ho])]
  exact ⟨_, _, rfl, rfl, rfl, ho⟩

/-- Running a sequence of upserts on an open driver succeeds and assigns
a strictly increasing sequence of local indexes, each above the starting
counter. -/
theorem driverUpsertAll_spec (docs : List DriverDoc) :
    ∀ s : SqliteDriverState, s.isClosedFlag = false →
      ∃ idxs s3, driverUpsertAll s docs = Except.ok (idxs, s3) ∧
        s3.isClosedFlag = false ∧
        List.Pairwise (fun a b => a < b) idxs ∧
        (∀ i ∈ idxs, s.maxLocalIndexField < i) := by
  induction docs with
  | nil =>
      intro s hs
      exact ⟨[], s, rfl, hs, List.Pairwise.nil, by simp⟩
  | cons d ds ih =>
      intro s hs
      obtain ⟨d2, s2, he, hidx, hmax, hopen⟩ := driverUpsert_step s d hs
      obtain ⟨idxs, s3, ha, h3, hp, hgt⟩ := ih s2 hopen
      refine ⟨(s.maxLocalIndexField + 1) :: idxs, s3, ?_, h3, ?_, ?_⟩
      · unfold driverUpsertAll
        rw [he]
        dsimp only
        rw [ha, hidx]
        rfl
      · refine List.Pairwise.cons (fun i hi => ?_) hp
        have := hgt i hi
        omega
      · intro i hi
        rcases List.mem_cons.mp hi with h | h
        · omega
        · have := hgt i h
          omega

/-- C8: a successful upsert stores the doc with localIndex equal to the
current maxLocalIndex plus one and increments maxLocalIndex, so any
sequence of successful upserts on one open driver assigns strictly
increasing localIndex values; getMaxLocalIndex on a freshly opened
empty store returns minus one. -/
theorem upsert_localIndex_monotonic (s : SqliteDriverState)
    (docs : List DriverDoc) (ho : s.isClosedFlag = false) :
    (∀ d d2 s2, driverUpsert s d = Except.ok (d2, s2) →
        d2.localIndexField = some (s.maxLocalIndexField + 1) ∧
          s2.maxLocalIndexField = s.maxLocalIndexField + 1) ∧
      (∃ idxs s3, driverUpsertAll s docs = Except.ok (idxs, s3) ∧
        List.Pairwise (fun a b => a < b) idxs) ∧
      driverGetMaxLocalIndex (openDriver [] []) = Except.ok (-1) := by
  refine ⟨?_, ?_, rfl⟩
  · intro d d2 s2 hu
    obtain ⟨d2x, s2x, he, h1, h2, -⟩ := driverUpsert_step s d ho
    rw [he] at hu
    simp only [Except.ok.injEq, Prod.mk.injEq] at hu
    obtain ⟨rfl, rfl⟩ := hu
    exact ⟨h1, h2⟩
  · obtain ⟨idxs, s3, ha, -, hp, -⟩ := driverUpsertAll_spec docs s ho
    exact ⟨idxs, s3, ha, hp⟩

/-- A concrete document for driver witnesses. -/
def exDriverDoc : DriverDoc :=
  { path := "/a", author := "@a", deleteAfter := none,
    localIndexField := none, rest := "" }

/-- Witness for C8: two upserts on a freshly opened empty driver succeed
with strictly increasing indexes. -/
theorem upsert_localIndex_monotonic_witness :
    (openDriver [] []).isClosedFlag = false ∧
      ∃ idxs s3,
        driverUpsertAll (openDriver [] []) [exDriverDoc, exDriverDoc] =
            Except.ok (idxs, s3) ∧
          List.Pairwise (fun a b => a < b) idxs :=
  ⟨rfl,
    (upsert_localIndex_monotonic (openDriver [] [])
      [exDriverDoc, exDriverDoc] rfl).2.1⟩

/-- C9: on a closed driver state every operation (setConfig, getConfig,
listConfigKeys, deleteConfig, getMaxLocalIndex, queryDocs, upsert,
eraseExpiredDocs) and a further close are rejected with
ReplicaIsClosedError while isClosed stays true; and closing an open
driver produces a closed state whose second close is rejected with the
same error. -/
theorem closed_driver_rejects_all (s : SqliteDriverState)
    (runQuery : List SqlDocRow → List SqlDocRow)
    (key content : String) (d : DriverDoc) (now : Int) (e1 e2 : Bool)
    (hc : s.isClosedFlag = true) :
    driverSetConfig s key content = Except.error ReplicaError.replicaIsClosed ∧
      driverGetConfig s key = Except.error ReplicaError.replicaIsClosed ∧
      driverListConfigKeys s = Except.error ReplicaError.replicaIsClosed ∧
      driverDeleteConfig s key = Except.error ReplicaError.replicaIsClosed ∧
      driverGetMaxLocalIndex s = Except.error ReplicaError.replicaIsClosed ∧
      driverQueryDocs runQuery s = Except.error ReplicaError.replicaIsClosed ∧
      driverUpsert s d = Except.error ReplicaError.replicaIsClosed ∧
      driverEraseExpiredDocs s now = Except.error ReplicaError.replicaIsClosed ∧
      driverClose s e1 = Except.error ReplicaError.replicaIsClosed ∧
      driverIsClosed s = true ∧
      (∀ s0 : SqliteDriverState, s0.isClosedFlag = false →
        ∃ s1, driverClose s0 e2 = Except.ok s1 ∧ driverIsClosed s1 = true ∧
          driverClose s1 e1 = Except.error ReplicaError.replicaIsClosed) := by
  refine ⟨?_, ?_, ?_, ?_, ?_, ?_, ?_, ?_, ?_, hc, ?_⟩
  · simp [driverSetConfig, hc]
  · simp [driverGetConfig, hc]
  · simp [driverListConfigKeys, hc]
  · simp [driverDeleteConfig, hc]
  · simp [driverGetMaxLocalIndex, hc]
  · simp [driverQueryDocs, hc]
  · simp [driverUpsert, hc]
  · simp [driverEraseExpiredDocs, hc]
  · simp [driverClose, hc]
  · intro s0 h0
    refine ⟨{ s0 with isClosedFlag := true }, ?_, rfl, ?_⟩
    · simp [driverClose, h0]
    · simp [driverClose]

/-- A concrete closed driver state. -/
def exClosedDriver : SqliteDriverState :=
  { openDriver [] [] with isClosedFlag := true }

/-- Witness for C9 at a concrete closed state and concrete arguments. -/
theorem closed_driver_rejects_all_witness :
    driverUpsert exClosedDriver exDriverDoc =
        Except.error ReplicaError.replicaIsClosed ∧
      driverGetMaxLocalIndex exClosedDriver =
        Except.error ReplicaError.replicaIsClosed ∧
      driverClose exClosedDriver false =
        Except.error ReplicaError.replicaIsClosed :=
  have h := closed_driver_rejects_all exClosedDriver (fun r => r) "k" "v"
    exDriverDoc 0 false false rfl
  ⟨h.2.2.2.2.2.2.1, h.2.2.2.2.1, h.2.2.2.2.2.2.2.2.1⟩

end Earthstar
